import Mathlib

/-
Verification of the symptom-intake assistant (src/chatbot.py) against its
natural-language specification.  The Python source is shallowly embedded:

  * the backend completion call (client.chat.completions.create followed by
    extraction of response.choices[0].message.content) is modelled as a
    function parameter of type ChatRequest → Except String String, where
    Except.error carries the textual message of the raised Python exception
    and Except.ok carries the response body text;
  * json.loads is modelled by the executable parser jsonLoads below, over a
    concrete Json value type (numeric literals keep their source lexeme, and
    the rarely exercised corners of the Python lexer — \u escapes, the
    leading-zero restriction — are modelled approximately, which no claim
    below depends on);
  * pandas CSV reading in load_doctors_database is modelled as a source state
    of type Except String (List Doctor): reading-and-parsing either raises
    (Except.error, carrying the message) or yields the parsed record list;
  * Streamlit rendering calls (st.error, st.spinner, ...) are display-only
    and have no effect on the returned values, so they are omitted.
-/

set_option autoImplicit false
set_option maxRecDepth 16384

namespace MedChat

/-- Json values as produced by the Python json module: null, booleans,
numbers (kept as their source lexeme, since no code under verification
computes with them), strings, arrays and objects (ordered field lists). -/
inductive Json where
  | null : Json
  | bool : Bool → Json
  | num : String → Json
  | str : String → Json
  | arr : List Json → Json
  | obj : List (String × Json) → Json

/-- Whitespace skipped between JSON tokens. -/
def skipWs : List Char → List Char
  | c :: cs =>
    if c == ' ' || c == '\t' || c == '\n' || c == '\r' then skipWs cs else c :: cs
  | [] => []

/-- Decode the body of a JSON string literal (after the opening quote),
returning the decoded text and the remaining input after the closing quote.
Standard escapes are handled; \u escapes are not modelled. -/
def parseStringBody : List Char → Option (String × List Char)
  | [] => none
  | '"' :: cs => some ("", cs)
  | '\\' :: cs =>
    match cs with
    | [] => none
    | c :: cs2 =>
      match parseStringBody cs2 with
      | none => none
      | some (rest, cs3) =>
        if c == '"' then some ("\"" ++ rest, cs3)
        else if c == '\\' then some ("\\" ++ rest, cs3)
        else if c == '/' then some ("/" ++ rest, cs3)
        else if c == 'n' then some ("\n" ++ rest, cs3)
        else if c == 't' then some ("\t" ++ rest, cs3)
        else if c == 'r' then some ("\r" ++ rest, cs3)
        else if c == 'b' then some (String.singleton (Char.ofNat 8) ++ rest, cs3)
        else if c == 'f' then some (String.singleton (Char.ofNat 12) ++ rest, cs3)
        else none
  | c :: cs =>
    match parseStringBody cs with
    | none => none
    | some (rest, cs2) => some (String.singleton c ++ rest, cs2)

/-- Split the longest prefix of decimal digits off the input. -/
def digitSpan : List Char → List Char × List Char
  | c :: cs =>
    if c.isDigit then
      let p := digitSpan cs
      (c :: p.1, p.2)
    else ([], c :: cs)
  | [] => ([], [])

/-- Lex a JSON numeric literal, keeping its text. -/
def parseNumber (cs : List Char) : Option (Json × List Char) :=
  let signed : List Char × List Char :=
    match cs with
    | '-' :: rest => (['-'], rest)
    | _ => ([], cs)
  let ip := digitSpan signed.2
  if ip.1 = [] then none
  else
    let fpart : List Char × List Char :=
      match ip.2 with
      | '.' :: rest =>
        let ds := digitSpan rest
        if ds.1 = [] then ([], ip.2) else ('.' :: ds.1, ds.2)
      | _ => ([], ip.2)
    let ep : List Char × List Char :=
      match fpart.2 with
      | c :: rest =>
        if c == 'e' || c == 'E' then
          let se : List Char × List Char :=
            match rest with
            | s :: r2 => if s == '+' || s == '-' then ([s], r2) else ([], rest)
            | [] => ([], rest)
          let ds := digitSpan se.2
          if ds.1 = [] then ([], fpart.2) else (c :: (se.1 ++ ds.1), ds.2)
        else ([], fpart.2)
      | [] => ([], fpart.2)
    some (Json.num (String.mk (signed.1 ++ ip.1 ++ fpart.1 ++ ep.1)), ep.2)

mutual

/-- Parse one JSON value (fuelled recursion; jsonLoads supplies ample fuel). -/
def parseValue : Nat → List Char → Option (Json × List Char)
  | 0, _ => none
  | fuel + 1, cs =>
    match skipWs cs with
    | 'n' :: 'u' :: 'l' :: 'l' :: rest => some (Json.null, rest)
    | 't' :: 'r' :: 'u' :: 'e' :: rest => some (Json.bool true, rest)
    | 'f' :: 'a' :: 'l' :: 's' :: 'e' :: rest => some (Json.bool false, rest)
    | '"' :: rest =>
      match parseStringBody rest with
      | some (s, rest2) => some (Json.str s, rest2)
      | none => none
    | '[' :: rest =>
      match skipWs rest with
      | ']' :: rest2 => some (Json.arr [], rest2)
      | cs2 =>
        match parseValue fuel cs2 with
        | some (v, rest2) =>
          match parseArrayTail fuel rest2 with
          | some (vs, rest3) => some (Json.arr (v :: vs), rest3)
          | none => none
        | none => none
    | '\x7b' :: rest =>
      match skipWs rest with
      | '\x7d' :: rest2 => some (Json.obj [], rest2)
      | cs2 =>
        match parseMember fuel cs2 with
        | some (kv, rest2) =>
          match parseObjTail fuel rest2 with
          | some (kvs, rest3) => some (Json.obj (kv :: kvs), rest3)
          | none => none
        | none => none
    | cs2 => parseNumber cs2

/-- Parse the rest of a JSON array after its first element. -/
def parseArrayTail : Nat → List Char → Option (List Json × List Char)
  | 0, _ => none
  | fuel + 1, cs =>
    match skipWs cs with
    | ']' :: rest => some ([], rest)
    | ',' :: rest =>
      match parseValue fuel rest with
      | some (v, rest2) =>
        match parseArrayTail fuel rest2 with
        | some (vs, rest3) => some (v :: vs, rest3)
        | none => none
      | none => none
    | _ => none

/-- Parse one key–value member of a JSON object. -/
def parseMember : Nat → List Char → Option ((String × Json) × List Char)
  | 0, _ => none
  | fuel + 1, cs =>
    match skipWs cs with
    | '"' :: rest =>
      match parseStringBody rest with
      | some (k, rest2) =>
        match skipWs rest2 with
        | ':' :: rest3 =>
          match parseValue fuel rest3 with
          | some (v, rest4) => some ((k, v), rest4)
          | none => none
        | _ => none
      | none => none
    | _ => none

/-- Parse the rest of a JSON object after its first member. -/
def parseObjTail : Nat → List Char → Option (List (String × Json) × List Char)
  | 0, _ => none
  | fuel + 1, cs =>
    match skipWs cs with
    | '\x7d' :: rest => some ([], rest)
    | ',' :: rest =>
      match parseMember fuel rest with
      | some (kv, rest2) =>
        match parseObjTail fuel rest2 with
        | some (kvs, rest3) => some (kv :: kvs, rest3)
        | none => none
      | none => none
    | _ => none

end

/-- json.loads: parse a complete JSON document, failing (with the message the
raised json.JSONDecodeError would carry, modelled abstractly) on anything
else.  Total by fuelled recursion; the fuel bound exceeds any possible
nesting depth of the input. -/
def jsonLoads (s : String) : Except String Json :=
  match parseValue (s.length + 1) s.toList with
  | some (v, rest) =>
    if skipWs rest = [] then Except.ok v
    else Except.error "Extra data"
  | none => Except.error "Expecting value"

/-- First-match association-list lookup, as used for dictionary access. -/
def assocLookup {α : Type} (fields : List (String × α)) (k : String) : Option α :=
  match fields with
  | [] => none
  | (k2, v) :: rest => if k2 = k then some v else assocLookup rest k

/-- Field access on a Json object (none on non-objects or missing keys). -/
def jsonLookup (j : Json) (k : String) : Option Json :=
  match j with
  | Json.obj fields => assocLookup fields k
  | _ => none

/-- A physician record, as produced by pandas df.to_dict(orient="records"):
a dictionary of the CSV columns.  Cell values are modelled as strings (no
claim below computes with a non-string cell). -/
abbrev Doctor := List (String × String)

/-- The hard-coded fallback list returned when loading the CSV fails
(src/chatbot.py lines 38-42). -/
def fallbackDoctors : List Doctor :=
  [[("name", "Dr. Alice Johnson"), ("specialization", "Cardiology"),
    ("experience", "15 years"), ("contact", "555-0123")],
   [("name", "Dr. Robert Smith"), ("specialization", "Neurology"),
    ("experience", "12 years"), ("contact", "555-0124")],
   [("name", "Dr. Jennifer Garcia"), ("specialization", "General Practice"),
    ("experience", "8 years"), ("contact", "555-0133")]]

/-- load_doctors_database (src/chatbot.py lines 29-42): reading and parsing
the backing CSV (pd.read_csv + to_dict) is the source argument — it either
raises, carrying a message, or yields the parsed record list.  On success
the records are returned as parsed; on any exception the fallback list is
returned (after an st.error display call, which has no effect on the value). -/
def load_doctors_database (source : Except String (List Doctor)) : List Doctor :=
  match source with
  | Except.ok records => records
  | Except.error _ => fallbackDoctors

/-- Escape one character for a JSON string literal (json.dumps). -/
def jsonEscapeChar (c : Char) : String :=
  if c == '"' then "\\\"" else if c == '\\' then "\\\\" else String.singleton c

/-- Escape a string for a JSON string literal (json.dumps). -/
def jsonEscape (s : String) : String :=
  String.join (s.toList.map jsonEscapeChar)

/-- Serialize one physician record as json.dumps does (default separators). -/
def dumpsDoctor (d : Doctor) : String :=
  "\x7b" ++ String.intercalate ", "
    (d.map (fun p => "\"" ++ jsonEscape p.1 ++ "\": \"" ++ jsonEscape p.2 ++ "\"")) ++ "\x7d"

/-- json.dumps(doctors_data) for the list of record dictionaries. -/
def jsonDumps (ds : List Doctor) : String :=
  "[" ++ String.intercalate ", " (ds.map dumpsDoctor) ++ "]"

/-- The system prompt f-string of generate_medical_response
(src/chatbot.py lines 51-87), with json.dumps(doctors_data) interpolated. -/
def system_prompt (doctors_data : List Doctor) : String :=
  "\n    You are a medical assistant chatbot designed to provide preliminary analysis of symptoms.\n    \n    Your responsibilities are:\n    1. Analyze the symptoms provided by the user\n    2. Identify possible conditions that match these symptoms (list 2-4 possibilities with varying levels of severity)\n    3. Suggest general treatment approaches for each condition\n    4. Recommend which type of specialist the user should consult\n    5. Recommend specific doctors from the database based on the appropriate specialization\n\n    Always include appropriate medical disclaimers and encourage seeking professional medical advice.\n    \n    Doctor database: " ++
  jsonDumps doctors_data ++
  "\n    \n    IMPORTANT: Your response must be in valid JSON format with the following structure:\n    \x7b\n        \"possible_conditions\": [\n            \x7b\n                \"condition\": \"Name of condition\",\n                \"likelihood\": \"low/medium/high\",\n                \"description\": \"Brief description\",\n                \"general_treatment\": \"General treatment approaches\",\n                \"recommended_specialist\": \"Type of specialist\"\n            \x7d\n        ],\n        \"recommended_doctors\": [\n            \x7b\n                \"name\": \"Doctor name\",\n                \"specialization\": \"Doctor specialization\",\n                \"experience\": \"Experience\",\n                \"contact\": \"Contact info\"\n            \x7d\n        ],\n        \"general_advice\": \"General advice about the symptoms\",\n        \"disclaimer\": \"Medical disclaimer\"\n    \x7d\n    "

/-- The user message of generate_medical_response (src/chatbot.py line 88). -/
def user_message (symptoms : String) : String :=
  "Analyze these symptoms: " ++ symptoms

/-- One chat message of the outbound request. -/
structure ChatMessage where
  role : String
  content : String
deriving DecidableEq

/-- The outbound request built by client.chat.completions.create
(src/chatbot.py lines 92-101).  The temperature 0.5 is recorded in tenths
to stay within exact arithmetic. -/
structure ChatRequest where
  messages : List ChatMessage
  model : String
  temperature_tenths : Nat
  max_completion_tokens : Nat
  response_format : String
deriving DecidableEq

/-- The concrete request generate_medical_response sends for given symptoms
and directory (src/chatbot.py lines 92-101). -/
def mkChatRequest (symptoms : String) (doctors_data : List Doctor) : ChatRequest :=
  ⟨[⟨"system", system_prompt doctors_data⟩, ⟨"user", user_message symptoms⟩],
   "llama-3.3-70b-versatile", 5, 1024, "json_object"⟩

/-- The body of the try block of generate_medical_response (src/chatbot.py
lines 90-104): perform the backend call, then json.loads the returned
content.  Except.error carries the message of the first exception raised. -/
def tryBody (backend : ChatRequest → Except String String) (req : ChatRequest) :
    Except String Json :=
  match backend req with
  | Except.error e => Except.error e
  | Except.ok text => jsonLoads text

/-- The dictionary built by the except branch of generate_medical_response
(src/chatbot.py lines 106-113). -/
def failureResult (msg : String) : Json :=
  Json.obj
    [("error", Json.str ("An error occurred: " ++ msg)),
     ("possible_conditions", Json.arr []),
     ("recommended_doctors", Json.arr []),
     ("general_advice", Json.str "Unable to analyze symptoms at this time."),
     ("disclaimer", Json.str "This is not medical advice. Please consult a healthcare professional.")]

/-- generate_medical_response (src/chatbot.py lines 48-113): run the try
block; any exception in it (backend call or json.loads) is caught and
converted into the fixed failure dictionary.  The function is total — the
embedding of "never raises" — and returns the parsed object unchanged on
success. -/
def generate_medical_response (backend : ChatRequest → Except String String)
    (symptoms : String) (doctors_data : List Doctor) : Json :=
  match tryBody backend (mkChatRequest symptoms doctors_data) with
  | Except.ok result => result
  | Except.error e => failureResult e

/-- State-threaded variant of generate_medical_response, making the heap
effect on the doctors_data argument explicit: the second component is the
value of the directory after the call.  The Python body contains no
statement that assigns to doctors_data or to any of its elements (it is
only read, by json.dumps), so the directory passes through each step
unchanged. -/
def generate_medical_response_st (backend : ChatRequest → Except String String)
    (symptoms : String) (doctors_data : List Doctor) : Json × List Doctor :=
  match tryBody backend (mkChatRequest symptoms doctors_data) with
  | Except.ok result => (result, doctors_data)
  | Except.error e => (failureResult e, doctors_data)

/-- Python str.strip() on ASCII text: drop whitespace from both ends. -/
def pyIsSpace (c : Char) : Bool :=
  c == ' ' || c == '\t' || c == '\n' || c == '\r' || c == Char.ofNat 11 || c == Char.ofNat 12

/-- Python str.strip() (no argument form), modelled over the ASCII
whitespace characters. -/
def pyStrip (s : String) : String :=
  String.mk (((s.toList.dropWhile pyIsSpace).reverse.dropWhile pyIsSpace).reverse)

/-- Outcome of one submission of the symptom form in main. -/
inductive SubmitOutcome where
  | analyzed : Json → SubmitOutcome
  | validationError : String → SubmitOutcome
  | noAction : SubmitOutcome

/-- The submission branch of main (src/chatbot.py lines 287-293):
generate_medical_response runs only when the button was pressed and
symptoms.strip() is truthy (non-empty); a pressed button with
empty-after-strip symptoms yields the st.error validation message. -/
def handle_symptom_form (backend : ChatRequest → Except String String)
    (submit_button : Bool) (symptoms : String) (doctors_data : List Doctor) :
    SubmitOutcome :=
  if submit_button = true ∧ pyStrip symptoms ≠ "" then
    SubmitOutcome.analyzed (generate_medical_response backend symptoms doctors_data)
  else if submit_button = true ∧ pyStrip symptoms = "" then
    SubmitOutcome.validationError "Please describe your symptoms before submitting."
  else
    SubmitOutcome.noAction

/-- True when the optional field is a Json string. -/
def isStrField (j : Option Json) : Bool :=
  match j with
  | some (Json.str _) => true
  | _ => false

/-- True when the optional field is a non-empty Json string. -/
def isNonEmptyStr (j : Option Json) : Bool :=
  match j with
  | some (Json.str s) => decide (s ≠ "")
  | _ => false

/-- Modelled from the spec: a ConditionAssessment object of the output
schema (condition, likelihood, description, general_treatment,
recommended_specialist, all strings).  The source has no validator; this
classifier follows the schema the spec states so that claims about
schema-conformant backend responses can be expressed. -/
def isConditionAssessment (j : Json) : Bool :=
  match j with
  | Json.obj fs =>
    isStrField (assocLookup fs "condition") &&
    isStrField (assocLookup fs "likelihood") &&
    isStrField (assocLookup fs "description") &&
    isStrField (assocLookup fs "general_treatment") &&
    isStrField (assocLookup fs "recommended_specialist")
  | _ => false

/-- Modelled from the spec: a RecommendedDoctor object of the output schema
(name, specialization, experience, contact, all strings). -/
def isRecommendedDoctor (j : Json) : Bool :=
  match j with
  | Json.obj fs =>
    isStrField (assocLookup fs "name") &&
    isStrField (assocLookup fs "specialization") &&
    isStrField (assocLookup fs "experience") &&
    isStrField (assocLookup fs "contact") &&
    true
  | _ => false

/-- Modelled from the spec: a schema-conformant AnalysisResult on the
success path — the four mandated top-level fields with 2-4 condition
assessments, a non-empty disclaimer, and no error marker. -/
def isSchemaConformant (j : Json) : Bool :=
  match j with
  | Json.obj fs =>
    (match assocLookup fs "possible_conditions" with
     | some (Json.arr cs) =>
       decide (2 ≤ cs.length) && decide (cs.length ≤ 4) && cs.all isConditionAssessment
     | _ => false) &&
    (match assocLookup fs "recommended_doctors" with
     | some (Json.arr ds) => ds.all isRecommendedDoctor
     | _ => false) &&
    isStrField (assocLookup fs "general_advice") &&
    isNonEmptyStr (assocLookup fs "disclaimer") &&
    (assocLookup fs "error").isNone
  | _ => false

/-- A backend whose call raises a connection error. -/
def backendDown : ChatRequest → Except String String :=
  fun _ => Except.error "Connection error"

/-- A backend answering with valid JSON that has no disclaimer field. -/
def backendMissingDisclaimer : ChatRequest → Except String String :=
  fun _ => Except.ok "\x7b\"possible_conditions\": [], \"recommended_doctors\": [], \"general_advice\": \"Drink water.\"\x7d"

/-- The object jsonLoads yields for backendMissingDisclaimer's response. -/
def missingDisclaimerJson : Json :=
  Json.obj
    [("possible_conditions", Json.arr []),
     ("recommended_doctors", Json.arr []),
     ("general_advice", Json.str "Drink water.")]

/-- A backend answering with a schema-conformant JSON object. -/
def backendConformant : ChatRequest → Except String String :=
  fun _ => Except.ok "\x7b\"possible_conditions\": [\x7b\"condition\": \"Bronchitis\", \"likelihood\": \"medium\", \"description\": \"Airway inflammation\", \"general_treatment\": \"Rest and fluids\", \"recommended_specialist\": \"Pulmonology\"\x7d, \x7b\"condition\": \"Common cold\", \"likelihood\": \"low\", \"description\": \"Viral infection\", \"general_treatment\": \"Rest\", \"recommended_specialist\": \"General Practice\"\x7d], \"recommended_doctors\": [\x7b\"name\": \"Dr. James Wilson\", \"specialization\": \"Pulmonology\", \"experience\": \"14 years\", \"contact\": \"555-0128\"\x7d], \"general_advice\": \"See a doctor if symptoms persist.\", \"disclaimer\": \"Consult a doctor.\"\x7d"

/-- The response text of backendConformant (for stating its parse). -/
def conformantText : String :=
  "\x7b\"possible_conditions\": [\x7b\"condition\": \"Bronchitis\", \"likelihood\": \"medium\", \"description\": \"Airway inflammation\", \"general_treatment\": \"Rest and fluids\", \"recommended_specialist\": \"Pulmonology\"\x7d, \x7b\"condition\": \"Common cold\", \"likelihood\": \"low\", \"description\": \"Viral infection\", \"general_treatment\": \"Rest\", \"recommended_specialist\": \"General Practice\"\x7d], \"recommended_doctors\": [\x7b\"name\": \"Dr. James Wilson\", \"specialization\": \"Pulmonology\", \"experience\": \"14 years\", \"contact\": \"555-0128\"\x7d], \"general_advice\": \"See a doctor if symptoms persist.\", \"disclaimer\": \"Consult a doctor.\"\x7d"

/-- The object jsonLoads yields for backendConformant's response. -/
def conformantJson : Json :=
  Json.obj
    [("possible_conditions", Json.arr
       [Json.obj
         [("condition", Json.str "Bronchitis"),
          ("likelihood", Json.str "medium"),
          ("description", Json.str "Airway inflammation"),
          ("general_treatment", Json.str "Rest and fluids"),
          ("recommended_specialist", Json.str "Pulmonology")],
        Json.obj
         [("condition", Json.str "Common cold"),
          ("likelihood", Json.str "low"),
          ("description", Json.str "Viral infection"),
          ("general_treatment", Json.str "Rest"),
          ("recommended_specialist", Json.str "General Practice")]]),
     ("recommended_doctors", Json.arr
       [Json.obj
         [("name", Json.str "Dr. James Wilson"),
          ("specialization", Json.str "Pulmonology"),
          ("experience", Json.str "14 years"),
          ("contact", Json.str "555-0128")]]),
     ("general_advice", Json.str "See a doctor if symptoms persist."),
     ("disclaimer", Json.str "Consult a doctor.")]

/-- A record whose name field is the empty string. -/
def badRecord : Doctor :=
  [("name", ""), ("specialization", "Cardiology"),
   ("experience", "1 year"), ("contact", "555-0000")]

/-- Claim C1: for every symptom string and directory, if any failure occurs
during the backend call or during parsing of its response, then
generate_medical_response does not raise (it is total) and returns the
failure-shaped result: error present, both sequences empty, the fixed
"Unable to analyze symptoms at this time." advice and the fixed
conservative disclaimer. -/
theorem claim_C1_failure_shape (backend : ChatRequest → Except String String)
    (symptoms : String) (doctors_data : List Doctor)
    (h : (∃ e, backend (mkChatRequest symptoms doctors_data) = Except.error e) ∨
         (∃ text e, backend (mkChatRequest symptoms doctors_data) = Except.ok text ∧
            jsonLoads text = Except.error e)) :
    (jsonLookup (generate_medical_response backend symptoms doctors_data) "error").isSome = true ∧
    jsonLookup (generate_medical_response backend symptoms doctors_data) "possible_conditions" =
      some (Json.arr []) ∧
    jsonLookup (generate_medical_response backend symptoms doctors_data) "recommended_doctors" =
      some (Json.arr []) ∧
    jsonLookup (generate_medical_response backend symptoms doctors_data) "general_advice" =
      some (Json.str "Unable to analyze symptoms at this time.") ∧
    jsonLookup (generate_medical_response backend symptoms doctors_data) "disclaimer" =
      some (Json.str "This is not medical advice. Please consult a healthcare professional.") := by
  have hres : ∃ e, generate_medical_response backend symptoms doctors_data = failureResult e := by
    rcases h with ⟨e, he⟩ | ⟨text, e, hok, hparse⟩
    · exact ⟨e, by simp [generate_medical_response, tryBody, he]⟩
    · exact ⟨e, by simp [generate_medical_response, tryBody, hok, hparse]⟩
  obtain ⟨e, he⟩ := hres
  rw [he]
  exact ⟨rfl, rfl, rfl, rfl, rfl⟩

/-- Witness for claim C1 at a concrete backend outage. -/
theorem claim_C1_witness :
    (jsonLookup (generate_medical_response backendDown "fever" fallbackDoctors) "error").isSome = true ∧
    jsonLookup (generate_medical_response backendDown "fever" fallbackDoctors) "possible_conditions" =
      some (Json.arr []) ∧
    jsonLookup (generate_medical_response backendDown "fever" fallbackDoctors) "recommended_doctors" =
      some (Json.arr []) ∧
    jsonLookup (generate_medical_response backendDown "fever" fallbackDoctors) "general_advice" =
      some (Json.str "Unable to analyze symptoms at this time.") ∧
    jsonLookup (generate_medical_response backendDown "fever" fallbackDoctors) "disclaimer" =
      some (Json.str "This is not medical advice. Please consult a healthcare professional.") :=
  claim_C1_failure_shape backendDown "fever" fallbackDoctors
    (Or.inl ⟨"Connection error", rfl⟩)

/-- Claim C2 counterexample: a backend response that is valid JSON but has
no disclaimer field is returned by generate_medical_response unchanged —
with error absent and disclaimer absent — not recovered into the
failure-shaped result the claim requires, because the source performs no
schema validation after json.loads. -/
theorem claim_C2_counterexample :
    generate_medical_response backendMissingDisclaimer "dry cough" fallbackDoctors =
      missingDisclaimerJson ∧
    jsonLookup missingDisclaimerJson "error" = none ∧
    jsonLookup missingDisclaimerJson "disclaimer" = none :=
  ⟨rfl, rfl, rfl⟩

/-- Claim C2 (amended): generate_medical_response performs no schema
validation: every backend response whose text parses as JSON is returned
unchanged, whatever required fields it is missing; only a JSON parse
failure (or a call failure) is recovered into the failure-shaped result. -/
theorem claim_C2_amended_no_validation (backend : ChatRequest → Except String String)
    (symptoms : String) (doctors_data : List Doctor) (text : String) (j : Json)
    (hc : backend (mkChatRequest symptoms doctors_data) = Except.ok text)
    (hp : jsonLoads text = Except.ok j) :
    generate_medical_response backend symptoms doctors_data = j := by
  simp [generate_medical_response, tryBody, hc, hp]

/-- Witness for the amended claim C2 at a concrete JSON response missing
the disclaimer field. -/
theorem claim_C2_amended_witness :
    generate_medical_response backendMissingDisclaimer "dry cough" fallbackDoctors =
      missingDisclaimerJson :=
  claim_C2_amended_no_validation backendMissingDisclaimer "dry cough" fallbackDoctors
    "\x7b\"possible_conditions\": [], \"recommended_doctors\": [], \"general_advice\": \"Drink water.\"\x7d"
    missingDisclaimerJson rfl rfl

/-- Claim C3: for every non-empty symptom string and a backend whose
response text parses to a schema-conformant object, generate_medical_response
returns exactly that parsed object unchanged, with error absent, 2-4
condition assessments and a non-empty disclaimer. -/
theorem claim_C3_success_passthrough (backend : ChatRequest → Except String String)
    (symptoms : String) (doctors_data : List Doctor) (text : String) (j : Json)
    (_hs : symptoms ≠ "")
    (hc : backend (mkChatRequest symptoms doctors_data) = Except.ok text)
    (hp : jsonLoads text = Except.ok j)
    (hschema : isSchemaConformant j = true) :
    generate_medical_response backend symptoms doctors_data = j ∧
    jsonLookup j "error" = none ∧
    (∃ cs, jsonLookup j "possible_conditions" = some (Json.arr cs) ∧
      2 ≤ cs.length ∧ cs.length ≤ 4) ∧
    (∃ d, jsonLookup j "disclaimer" = some (Json.str d) ∧ d ≠ "") := by
  have hres : generate_medical_response backend symptoms doctors_data = j := by
    simp [generate_medical_response, tryBody, hc, hp]
  cases j with
  | null => simp [isSchemaConformant] at hschema
  | bool b => simp [isSchemaConformant] at hschema
  | num n => simp [isSchemaConformant] at hschema
  | str s => simp [isSchemaConformant] at hschema
  | arr xs => simp [isSchemaConformant] at hschema
  | obj fs =>
    simp only [isSchemaConformant, Bool.and_eq_true] at hschema
    obtain ⟨⟨⟨⟨h1, h2⟩, h3⟩, h4⟩, h5⟩ := hschema
    refine ⟨hres, ?_, ?_, ?_⟩
    · simpa [jsonLookup] using Option.isNone_iff_eq_none.mp h5
    · split at h1
      next cs heq =>
        rw [Bool.and_eq_true, Bool.and_eq_true] at h1
        exact ⟨cs, by simp [jsonLookup, heq],
          of_decide_eq_true h1.1.1, of_decide_eq_true h1.1.2⟩
      next => simp at h1
    · simp only [isNonEmptyStr] at h4
      split at h4
      next s heq =>
        exact ⟨s, by simp [jsonLookup, heq], of_decide_eq_true h4⟩
      next => simp at h4

/-- Witness for claim C3 at a concrete conformant backend response. -/
theorem claim_C3_witness :
    generate_medical_response backendConformant "I have a dry cough" fallbackDoctors =
      conformantJson ∧
    jsonLookup conformantJson "error" = none ∧
    (∃ cs, jsonLookup conformantJson "possible_conditions" = some (Json.arr cs) ∧
      2 ≤ cs.length ∧ cs.length ≤ 4) ∧
    (∃ d, jsonLookup conformantJson "disclaimer" = some (Json.str d) ∧ d ≠ "") :=
  claim_C3_success_passthrough backendConformant "I have a dry cough" fallbackDoctors
    conformantText conformantJson (by decide) rfl rfl rfl

/-- Claim C4 counterexample: a backing source that reads and parses
successfully to zero records (e.g. a CSV file holding only its header
line) makes load_doctors_database return the empty list, so the clause
that load_directory never produces an empty result is false. -/
theorem claim_C4_counterexample :
    load_doctors_database (Except.ok []) = [] :=
  rfl

/-- Claim C4 (amended): whenever reading or parsing the backing source
fails, load_doctors_database returns the built-in fallback directory,
which is non-empty; it never raises.  (It can, however, return an empty
sequence when the source successfully parses to zero records.) -/
theorem claim_C4_amended_fallback (e : String) :
    load_doctors_database (Except.error e) = fallbackDoctors ∧
    fallbackDoctors ≠ [] :=
  ⟨rfl, by simp [fallbackDoctors]⟩

/-- Witness for the amended claim C4 at a concrete read error. -/
theorem claim_C4_amended_witness :
    load_doctors_database (Except.error "No such file or directory") = fallbackDoctors ∧
    fallbackDoctors ≠ [] :=
  claim_C4_amended_fallback "No such file or directory"

/-- Claim C5 counterexample: a readable source containing a record whose
name is the empty string passes through load_doctors_database untouched —
no record is dropped — so the claimed non-empty name/specialization
invariant of the returned sequence is false. -/
theorem claim_C5_counterexample :
    load_doctors_database (Except.ok [badRecord]) = [badRecord] ∧
    assocLookup badRecord "name" = some "" :=
  ⟨rfl, rfl⟩

/-- Claim C5 (amended): load_doctors_database applies no validation or
filtering: for a readable source it returns exactly the parsed records;
only the built-in fallback records (used when reading fails) all carry a
non-empty name and a non-empty specialization. -/
theorem claim_C5_amended_passthrough (records : List Doctor) :
    load_doctors_database (Except.ok records) = records ∧
    fallbackDoctors.all
      (fun d => ((assocLookup d "name").getD "" != "") &&
        ((assocLookup d "specialization").getD "" != "")) = true :=
  ⟨rfl, rfl⟩

/-- Witness for the amended claim C5 at a concrete record list. -/
theorem claim_C5_amended_witness :
    load_doctors_database (Except.ok [badRecord]) = [badRecord] ∧
    fallbackDoctors.all
      (fun d => ((assocLookup d "name").getD "" != "") &&
        ((assocLookup d "specialization").getD "" != "")) = true :=
  claim_C5_amended_passthrough [badRecord]

/-- Claim C6: the user message sent to the backend carries the raw symptom
text verbatim — it is the fixed prefix "Analyze these symptoms: " followed
character for character by the unmodified symptom string, and it is the
second (user-role) message of the request. -/
theorem claim_C6_verbatim_symptoms (symptoms : String) (doctors_data : List Doctor) :
    (mkChatRequest symptoms doctors_data).messages =
      [⟨"system", system_prompt doctors_data⟩,
       ⟨"user", "Analyze these symptoms: " ++ symptoms⟩] ∧
    (∃ pre, user_message symptoms = pre ++ symptoms) :=
  ⟨rfl, "Analyze these symptoms: ", rfl⟩

/-- Witness for claim C6 at a concrete symptom string. -/
theorem claim_C6_witness :
    (mkChatRequest "chest pain" fallbackDoctors).messages =
      [⟨"system", system_prompt fallbackDoctors⟩,
       ⟨"user", "Analyze these symptoms: " ++ "chest pain"⟩] ∧
    (∃ pre, user_message "chest pain" = pre ++ "chest pain") :=
  claim_C6_verbatim_symptoms "chest pain" fallbackDoctors

/-- Claim C7: generate_medical_response is invoked by the form handler only
when the submitted symptom string is non-empty after stripping whitespace;
a pressed submission whose symptoms strip to the empty string instead
yields the caller-side validation error message. -/
theorem claim_C7_submit_gate (backend : ChatRequest → Except String String)
    (submit_button : Bool) (symptoms : String) (doctors_data : List Doctor) :
    (∀ r, handle_symptom_form backend submit_button symptoms doctors_data =
        SubmitOutcome.analyzed r → pyStrip symptoms ≠ "") ∧
    (submit_button = true → pyStrip symptoms = "" →
      handle_symptom_form backend submit_button symptoms doctors_data =
        SubmitOutcome.validationError "Please describe your symptoms before submitting.") := by
  constructor
  · intro r hr hemp
    simp [handle_symptom_form, hemp] at hr
    split at hr
    next => cases hr
    next => cases hr
  · intro hb hemp
    simp [handle_symptom_form, hb, hemp]

/-- Witness for claim C7: a pressed submission of whitespace-only symptoms
produces the validation error, not an analysis. -/
theorem claim_C7_witness :
    handle_symptom_form backendDown true "   " fallbackDoctors =
      SubmitOutcome.validationError "Please describe your symptoms before submitting." :=
  (claim_C7_submit_gate backendDown true "   " fallbackDoctors).2 rfl rfl

/-- Claim C8: load_doctors_database is deterministic in the state of the
backing source, so two successive calls with no intervening change to the
underlying data return equal record sequences. -/
theorem claim_C8_idempotent_load (source : Except String (List Doctor)) :
    load_doctors_database source = load_doctors_database source :=
  rfl

/-- Witness for claim C8 at a concrete source state. -/
theorem claim_C8_witness :
    load_doctors_database (Except.ok [badRecord]) =
      load_doctors_database (Except.ok [badRecord]) :=
  claim_C8_idempotent_load (Except.ok [badRecord])

/-- Claim C9: generate_medical_response never mutates the physician
directory passed to it: threading the directory through the call as
explicit state, the directory coming out equals the directory going in on
the success path and on the failure path alike, while the returned result
agrees with generate_medical_response. -/
theorem claim_C9_no_mutation (backend : ChatRequest → Except String String)
    (symptoms : String) (doctors_data : List Doctor) :
    (generate_medical_response_st backend symptoms doctors_data).2 = doctors_data ∧
    (generate_medical_response_st backend symptoms doctors_data).1 =
      generate_medical_response backend symptoms doctors_data := by
  cases h : tryBody backend (mkChatRequest symptoms doctors_data) with
  | ok result => simp [generate_medical_response_st, generate_medical_response, h]
  | error e => simp [generate_medical_response_st, generate_medical_response, h]

/-- Witness for claim C9 at a concrete failing backend. -/
theorem claim_C9_witness :
    (generate_medical_response_st backendDown "fatigue" fallbackDoctors).2 = fallbackDoctors ∧
    (generate_medical_response_st backendDown "fatigue" fallbackDoctors).1 =
      generate_medical_response backendDown "fatigue" fallbackDoctors :=
  claim_C9_no_mutation backendDown "fatigue" fallbackDoctors

/-- Claim C10: on every failure of the backend call or of parsing, the
error field of the returned failure-shaped result is exactly the string
"An error occurred: " concatenated with the text of the underlying
exception. -/
theorem claim_C10_error_message (backend : ChatRequest → Except String String)
    (symptoms : String) (doctors_data : List Doctor) (e : String)
    (h : tryBody backend (mkChatRequest symptoms doctors_data) = Except.error e) :
    jsonLookup (generate_medical_response backend symptoms doctors_data) "error" =
      some (Json.str ("An error occurred: " ++ e)) := by
  simp [generate_medical_response, h, jsonLookup, failureResult, assocLookup]

/-- Witness for claim C10 at a concrete connection failure. -/
theorem claim_C10_witness :
    jsonLookup (generate_medical_response backendDown "sore throat" fallbackDoctors) "error" =
      some (Json.str ("An error occurred: " ++ "Connection error")) :=
  claim_C10_error_message backendDown "sore throat" fallbackDoctors "Connection error" rfl

end MedChat
